import Mathlib

set_option linter.unusedVariables false
set_option maxRecDepth 1000000

/-!
Shallow embedding of `generate_html.py`, the single source file of the
VCAScribe-AuditRecords repository.  The script turns appointment JSON
payloads into HTML reports.  Python values that can result from
`json.loads` are modelled by `JVal`; Python exceptions are modelled by
`Except String`, where the message names the Python exception type.
-/

/-- Values produced by Python's `json.loads`: `None`, booleans, numbers,
strings, lists and dicts (dicts keep insertion order, modelled as an
association list).  JSON numbers are modelled as integers; the repository's
records and all claims involve no fractional numbers. -/
inductive JVal where
  | null
  | bool (b : Bool)
  | int (n : Int)
  | str (s : String)
  | arr (xs : List JVal)
  | obj (kvs : List (String × JVal))

/-- The double-quote character. -/
def quoteChar : Char := Char.ofNat 34

/-- The single-quote character. -/
def aposChar : Char := Char.ofNat 39

/-- The left-brace character. -/
def lbraceChar : Char := Char.ofNat 123

/-- The right-brace character. -/
def rbraceChar : Char := Char.ofNat 125

/-- The backslash character. -/
def bslashChar : Char := Char.ofNat 92

/-- Model of `html.escape` on a single character (with `quote=True`, the default used
by the script): `&`, `<`, `>`, `"` and the single quote are replaced by
entities. -/
def escapeChar (c : Char) : String :=
  if c = Char.ofNat 38 then "&amp;"
  else if c = Char.ofNat 60 then "&lt;"
  else if c = Char.ofNat 62 then "&gt;"
  else if c = quoteChar then "&quot;"
  else if c = aposChar then "&#x27;"
  else String.singleton c

/-- Python's `html.escape` with its default `quote=True`. -/
def escape (s : String) : String :=
  String.join (s.toList.map escapeChar)

/-- ASCII lowercase of one character, as Python's `str.lower` does on the
ASCII file suffixes the script compares. -/
def asciiLowerChar (c : Char) : Char :=
  if 'A' ≤ c ∧ c ≤ 'Z' then Char.ofNat (c.toNat + 32) else c

/-- ASCII lowercase of a string. -/
def asciiLower (s : String) : String :=
  String.mk (s.toList.map asciiLowerChar)

/-- Whether the string contains the character (Python's `c in s`). -/
def strContainsChar (s : String) (c : Char) : Bool :=
  s.toList.contains c

/-- One character of Python's `repr` of a string, given the chosen quote
character.  Backslashes and the quote are escaped, as are newline, carriage
return and tab; other characters are kept (the records are plain text). -/
def pyReprStrChar (q : Char) (c : Char) : String :=
  if c = bslashChar then String.singleton bslashChar ++ String.singleton bslashChar
  else if c = q then String.singleton bslashChar ++ String.singleton q
  else if c = Char.ofNat 10 then String.singleton bslashChar ++ "n"
  else if c = Char.ofNat 13 then String.singleton bslashChar ++ "r"
  else if c = Char.ofNat 9 then String.singleton bslashChar ++ "t"
  else String.singleton c

/-- Python's `repr` of a string: single quotes by default, double quotes when
the string contains a single quote but no double quote. -/
def pyReprStr (s : String) : String :=
  let q := if strContainsChar s aposChar ∧ ¬ strContainsChar s quoteChar then quoteChar else aposChar
  String.singleton q ++ String.join (s.toList.map (pyReprStrChar q)) ++ String.singleton q

mutual

/-- Python's `repr` of a JSON-derived value: `None`, `True`, `False`,
decimal integers, quoted strings, `[...]` lists and brace-delimited dicts
with `, `-separated `key: value` entries. -/
def pyRepr : JVal → String
  | .null => "None"
  | .bool b => if b then "True" else "False"
  | .int n => toString n
  | .str s => pyReprStr s
  | .arr xs => "[" ++ pyReprArr xs ++ "]"
  | .obj kvs => String.singleton lbraceChar ++ pyReprKVs kvs ++ String.singleton rbraceChar

/-- Comma-join of the `repr`s of list elements. -/
def pyReprArr : List JVal → String
  | [] => ""
  | [x] => pyRepr x
  | x :: xs => pyRepr x ++ ", " ++ pyReprArr xs

/-- Comma-join of the `repr`ed `key: value` entries of a dict. -/
def pyReprKVs : List (String × JVal) → String
  | [] => ""
  | [kv] => pyReprStr kv.1 ++ ": " ++ pyRepr kv.2
  | kv :: kvs => pyReprStr kv.1 ++ ": " ++ pyRepr kv.2 ++ ", " ++ pyReprKVs kvs

end

/-- Python's `str` on JSON-derived values: a string is itself, everything
else falls back to `repr`. -/
def pyStr : JVal → String
  | .str s => s
  | v => pyRepr v

/-- Python truthiness of a JSON-derived value: `None`, `False`, `0`, the
empty string, the empty list and the empty dict are falsy. -/
def pyTruthy : JVal → Bool
  | .null => false
  | .bool b => b
  | .int n => !(n == 0)
  | .str s => !(s == "")
  | .arr xs => !xs.isEmpty
  | .obj kvs => !kvs.isEmpty

/-- Python's `a or b` on JSON-derived values: the first operand when truthy,
otherwise the second. -/
def pyOr (a b : JVal) : JVal := if pyTruthy a then a else b

/-- Model of `d.get(k, default)` on a dict modelled as an association list (first
binding wins; dicts built by the parser are duplicate-free). -/
def dictGetD (kvs : List (String × JVal)) (k : String) (d : JVal) : JVal :=
  match kvs.find? (fun kv => kv.1 == k) with
  | some kv => kv.2
  | none => d

/-- Model of `d.get(k)` with the default `None`. -/
def dictGet (kvs : List (String × JVal)) (k : String) : JVal :=
  dictGetD kvs k .null

/-- Model of `v.get(k)` on an arbitrary value: an `AttributeError` unless `v` is a
dict. -/
def objGet (v : JVal) (k : String) : Except String JVal :=
  match v with
  | .obj kvs => .ok (dictGet kvs k)
  | _ => .error "AttributeError"

/-- Python's `for x in v`: lists yield their elements, strings their
characters, dicts their keys; other values raise `TypeError`. -/
def pyIter : JVal → Except String (List JVal)
  | .arr xs => .ok xs
  | .str s => .ok (s.toList.map (fun c => JVal.str (String.singleton c)))
  | .obj kvs => .ok (kvs.map (fun kv => JVal.str kv.1))
  | _ => .error "TypeError"

/-- Model of `sep.join(xs)` on Python values: every element must be a string,
otherwise `TypeError`. -/
def pyJoin (sep : String) (xs : List JVal) : Except String String :=
  match xs.mapM (fun x => match x with | .str s => some s | _ => none) with
  | some ss => .ok (String.intercalate sep ss)
  | none => .error "TypeError"

/-- Whether a value is a Python container (dict or list). -/
def isContainer : JVal → Bool
  | .obj _ => true
  | .arr _ => true
  | _ => false

/-- Sequential mapping of a fallible function over a list, mirroring a
Python `for` loop that appends to an accumulator: the first raised
exception aborts the loop. -/
def exMapList (f : α → Except String β) : List α → Except String (List β)
  | [] => .ok []
  | x :: xs =>
    match f x with
    | .error e => .error e
    | .ok y =>
      match exMapList f xs with
      | .error e => .error e
      | .ok ys => .ok (y :: ys)

/-- Sequential mapping of a partial function over a list in `Option`. -/
def opMapList (f : α → Option β) : List α → Option (List β)
  | [] => some []
  | x :: xs =>
    match f x with
    | none => none
    | some y =>
      match opMapList f xs with
      | none => none
      | some ys => some (y :: ys)

mutual

/-- The function `to_html` from the script: recursively converts a value into a nested
`<ul>` structure.  `None` and the empty string give the empty string, dicts
and lists give `<ul>` structures, other scalars are escaped `str` forms. -/
def to_html : JVal → String
  | .null => ""
  | .bool b => escape (pyStr (.bool b))
  | .int n => escape (pyStr (.int n))
  | .str s => if s = "" then "" else escape s
  | .obj kvs => "<ul>" ++ to_htmlKVs kvs ++ "</ul>"
  | .arr xs => "<ul>" ++ to_htmlArr xs ++ "</ul>"

/-- The concatenated `<li><strong>key:</strong> value</li>` items of a dict,
in insertion order. -/
def to_htmlKVs : List (String × JVal) → String
  | [] => ""
  | kv :: kvs =>
      "<li><strong>" ++ escape kv.1 ++ ":</strong> " ++ to_html kv.2 ++ "</li>" ++ to_htmlKVs kvs

/-- The concatenated `<li>...</li>` items of a list. -/
def to_htmlArr : List JVal → String
  | [] => ""
  | x :: xs => "<li>" ++ to_html x ++ "</li>" ++ to_htmlArr xs

end

mutual

/-- Structural size of a JSON value: one plus the sizes of all nested
values.  Used as the fuel bound in the termination statement for
`to_html`. -/
def jsize : JVal → Nat
  | .null => 1
  | .bool _ => 1
  | .int _ => 1
  | .str _ => 1
  | .arr xs => 1 + jsizeArr xs
  | .obj kvs => 1 + jsizeKVs kvs

/-- Sum of the sizes of list elements. -/
def jsizeArr : List JVal → Nat
  | [] => 0
  | x :: xs => jsize x + jsizeArr xs

/-- Sum of the sizes of dict values. -/
def jsizeKVs : List (String × JVal) → Nat
  | [] => 0
  | kv :: kvs => jsize kv.2 + jsizeKVs kvs

end

/-- Fuel-bounded variant of `to_html`, modelling the Python call stack:
`none` means the recursion did not bottom out within `fuel` nested calls.
The claim that `to_html` terminates on every finite JSON tree is the
statement that fuel `jsize v` always suffices and always yields `some`. -/
def to_htmlF : Nat → JVal → Option String
  | 0, _ => none
  | fuel+1, v =>
    match v with
    | .null => some ""
    | .bool b => some (escape (pyStr (.bool b)))
    | .int n => some (escape (pyStr (.int n)))
    | .str s => if s = "" then some "" else some (escape s)
    | .obj kvs =>
        match opMapList (fun kv =>
            match to_htmlF fuel kv.2 with
            | none => none
            | some ih => some ("<li><strong>" ++ escape kv.1 ++ ":</strong> " ++ ih ++ "</li>")) kvs with
        | none => none
        | some items => some ("<ul>" ++ String.join items ++ "</ul>")
    | .arr xs =>
        match opMapList (fun x =>
            match to_htmlF fuel x with
            | none => none
            | some ih => some ("<li>" ++ ih ++ "</li>")) xs with
        | none => none
        | some items => some ("<ul>" ++ String.join items ++ "</ul>")

/-- The function `safe` from the script: HTML-escaped `str` of the value, or the empty
string for `None`. -/
def safe : JVal → String
  | .null => ""
  | v => escape (pyStr v)

/-- The function `format_patient_history_model_one` from the script: returns the empty
string unconditionally. -/
def format_patient_history_model_one (_ : JVal) : String := ""

/-- The `(key, heading)` pairs walked by `render_concerns`. -/
def concernLabels : List (String × String) :=
  [("active", "Active"), ("resolved", "Resolved"), ("inactive", "Inactive")]

/-- One heading/list group of `render_concerns`: emitted only when the
concern list under the key is truthy. -/
def concernPiece (ckvs : List (String × JVal)) (kl : String × String) : Except String String :=
  let items := dictGet ckvs kl.1
  if pyTruthy items then
    match pyIter items with
    | .error e => .error e
    | .ok lst =>
        .ok ("<h4 style=\x22text-decoration: underline; text-underline-offset: 4px;\x22>" ++ kl.2 ++ "</h4>"
          ++ "<ul>" ++ String.join (lst.map (fun it => "<li>" ++ safe it ++ "</li>")) ++ "</ul>")
  else .ok ""

/-- The function `render_concerns` from the script (nested in
`format_patient_history_card_model`). -/
def render_concerns (ckvs : List (String × JVal)) : Except String String :=
  match exMapList (concernPiece ckvs) concernLabels with
  | .error e => .error e
  | .ok ps => .ok ("<div class=\x22display_grid gap-16\x22>" ++ String.join ps ++ "</div>")

/-- The value cell of a patient-history row: concern dicts get
`render_concerns`, lists are `<br>`-joined escaped truthy items, everything
else is `safe`d. -/
def phValueHtml (value : JVal) : Except String String :=
  match value with
  | .obj vkvs =>
      if ["active", "resolved", "inactive"].any (fun k => (vkvs.map Prod.fst).contains k) then
        render_concerns vkvs
      else .ok (safe value)
  | .arr xs => .ok (String.intercalate "<br>" ((xs.filter pyTruthy).map safe))
  | v => .ok (safe v)

/-- One table row of `format_patient_history_card_model`. -/
def phRow (ikvs : List (String × JVal)) : Except String String :=
  let label := pyOr (dictGet ikvs "label") (pyOr (dictGet ikvs "key") (.str ""))
  let value := dictGet ikvs "value"
  match phValueHtml value with
  | .error e => .error e
  | .ok vh =>
      .ok ("<tr class=\x22display_flex gap-16\x22 style=\x22flex-flow: wrap;\x22>"
        ++ "<td style=\x22font-weight:600; min-width:150px;\x22>" ++ safe label ++ "</td>"
        ++ "<td>" ++ vh ++ "</td>"
        ++ "</tr>")

/-- The table body of `format_patient_history_card_model`: non-dict items
are skipped. -/
def phTable (items : List JVal) : Except String String :=
  match exMapList phRow (items.filterMap (fun it =>
      match it with | .obj ik => some ik | _ => none)) with
  | .error e => .error e
  | .ok rows => .ok ("<table><tbody>" ++ String.join rows ++ "</tbody></table>")

/-- The function `format_patient_history_card_model` from the script. -/
def format_patient_history_card_model (data : JVal) : Except String String :=
  if pyTruthy data = false then .ok ""
  else
    match data with
    | .obj kvs => phTable (kvs.map (fun kv => JVal.obj [("label", .str kv.1), ("value", kv.2)]))
    | .arr xs => phTable xs
    | v => .ok (safe v)

/-- One `Name: value unit comment` line of `format_tpr_model_one`. -/
def tprLine (kv : String × JVal) : Except String String :=
  match kv.2 with
  | .obj vkvs =>
    let val := dictGet vkvs "Value"
    let unit := dictGet vkvs "Unit"
    let comment := dictGet vkvs "Comment"
    let parts : List JVal :=
      (match val with | .null => [] | v => [JVal.str (pyStr v)])
        ++ (if pyTruthy unit then [unit] else [])
        ++ (if pyTruthy comment then [comment] else [])
    if parts.isEmpty then .ok kv.1
    else
      match pyJoin " " parts with
      | .error e => .error e
      | .ok j => .ok (kv.1 ++ ": " ++ j)
  | _ => .error "AttributeError"

/-- The function `format_tpr_model_one` from the script. -/
def format_tpr_model_one (data : JVal) : Except String String :=
  if pyTruthy data = false then .ok ""
  else
    match data with
    | .obj kvs =>
        match exMapList tprLine kvs with
        | .error e => .error e
        | .ok lines => .ok (String.intercalate "<br>" (lines.map (fun l => safe (.str l))))
    | _ => .error "AttributeError"

/-- One `<td>` cell of `format_tpr_card_model`. -/
def tprCell (vital : JVal) : Except String String :=
  match vital with
  | .obj vkvs =>
    let label := pyOr (dictGet vkvs "label") (pyOr (dictGet vkvs "key") (.str ""))
    let unit := dictGet vkvs "unit"
    let value := dictGet vkvs "value"
    let comment := dictGet vkvs "comment"
    let labelText : JVal :=
      if pyTruthy unit then .str (pyStr label ++ " (" ++ pyStr unit ++ ")") else label
    .ok ("<td style=\x22max-width: 180px; padding: 0 8px;\x22>"
      ++ "<section class=\x22display_grid\x22>"
      ++ "<h4>" ++ safe labelText ++ "</h4>"
      ++ (match value with | .null => "" | v => "<span>" ++ safe v ++ "</span>")
      ++ (if pyTruthy comment then "<span>" ++ safe comment ++ "</span>" else "")
      ++ "</section></td>")
  | _ => .error "AttributeError"

/-- The function `format_tpr_card_model` from the script. -/
def format_tpr_card_model (data : JVal) : Except String String :=
  if pyTruthy data = false then .ok ""
  else
    match pyIter data with
    | .error e => .error e
    | .ok vitals =>
      match exMapList tprCell vitals with
      | .error e => .error e
      | .ok cells =>
          .ok ("<table><tbody>"
            ++ "<tr class=\x22display_flex gap-16\x22 style=\x22flex-flow: wrap;\x22>"
            ++ String.join cells
            ++ "</tr>" ++ "</tbody></table>")

/-- One optional `Structure: Finding` line of `format_pef_model_one`. -/
def pefLine (item : JVal) : Except String (Option String) :=
  match item with
  | .obj ikvs =>
    let struct := dictGet ikvs "StructureOrCharacteristic"
    let finding := dictGet ikvs "Finding"
    if pyTruthy struct || pyTruthy finding then
      .ok (some (pyStr struct ++ ": " ++ pyStr finding))
    else .ok none
  | _ => .error "AttributeError"

/-- The function `format_pef_model_one` from the script. -/
def format_pef_model_one (data : JVal) : Except String String :=
  if pyTruthy data = false then .ok ""
  else
    match data with
    | .obj kvs =>
        match exMapList (fun kv =>
            match pyIter kv.2 with
            | .error e => .error e
            | .ok items => exMapList pefLine items) kvs with
        | .error e => .error e
        | .ok nested =>
            .ok (String.intercalate "<br>"
              ((nested.flatten.filterMap id).map (fun l => safe (.str l))))
    | _ => .error "AttributeError"

/-- One optional `sub: obs - comment` line of `format_pef_card_model`. -/
def pefCardLine (item : JVal) : Except String (Option String) :=
  match item with
  | .obj ikvs =>
    let sub := pyOr (dictGet ikvs "subCategory") (dictGet ikvs "category")
    let obs := dictGet ikvs "observation"
    let comment := dictGet ikvs "comment"
    let parts := [obs, comment].filter pyTruthy
    if pyTruthy sub && !parts.isEmpty then
      match pyJoin " - " parts with
      | .error e => .error e
      | .ok j => .ok (some (pyStr sub ++ ": " ++ j))
    else .ok none
  | _ => .error "AttributeError"

/-- The function `format_pef_card_model` from the script. -/
def format_pef_card_model (data : JVal) : Except String String :=
  if pyTruthy data = false then .ok ""
  else
    match pyIter data with
    | .error e => .error e
    | .ok items =>
      match exMapList pefCardLine items with
      | .error e => .error e
      | .ok ls =>
          .ok (String.intercalate "<br>"
            ((ls.filterMap id).map (fun l => safe (.str l))))

/-- The function `format_hsa_card_model` from the script: lists are `<br>`-joined
`to_html` renderings, everything else goes through `to_html` directly. -/
def format_hsa_card_model (data : JVal) : String :=
  if pyTruthy data = false then ""
  else
    match data with
    | .arr xs => String.intercalate "<br>" (xs.map to_html)
    | v => to_html v

/-- The `(key, label)` pairs of the model-one plan section. -/
def apLabels : List (String × String) :=
  [("DiscussionWithOwner", "Discussion With Owner"),
   ("Diagnostics", "Diagnostics"),
   ("InHospitalTreatments", "In Hospital Treatments"),
   ("Vaccines", "Vaccines"),
   ("Medications", "Medications"),
   ("RecommendedRecheck", "Recommended Recheck")]

/-- One assessment/plan block of `format_ap_model_one`. -/
def apBlockOne (item : JVal) : Except String String :=
  match item with
  | .obj ikvs =>
    match pyIter (dictGetD ikvs "ProblemsOrConcerns" (.arr [])) with
    | .error e => .error e
    | .ok pocItems =>
      match pyJoin ", " pocItems with
      | .error e => .error e
      | .ok concerns =>
        match objGet (dictGetD ikvs "Assessment" (.obj [])) "Assessment" with
        | .error e => .error e
        | .ok assessment =>
          let plan := dictGetD ikvs "Plan" (.obj [])
          match exMapList (fun kl =>
              match objGet plan kl.1 with
              | .error e => .error e
              | .ok v =>
                  .ok (if pyTruthy v then
                        "<p><strong>" ++ kl.2 ++ ":</strong> " ++ safe v ++ "</p>"
                      else "")) apLabels with
          | .error e => .error e
          | .ok planParts =>
            let a1 := if concerns.isEmpty then ""
              else "<p><strong>Concerns:</strong> " ++ safe (.str concerns) ++ "</p>"
            let a2 := if pyTruthy assessment then "<p>" ++ safe assessment ++ "</p>" else ""
            .ok ("<div class=\x22display_grid gap-16\x22>"
              ++ "<div>"
              ++ "<h4 style=\x22text-decoration: underline; text-underline-offset: 4px;\x22>Assessments</h4>"
              ++ a1 ++ a2
              ++ "</div>"
              ++ "<div>"
              ++ "<h4 style=\x22text-decoration: underline; text-underline-offset: 4px;\x22>Plans</h4>"
              ++ String.join planParts
              ++ "</div>"
              ++ "</div>")
  | _ => .error "AttributeError"

/-- The function `format_ap_model_one` from the script. -/
def format_ap_model_one (data : JVal) : Except String String :=
  if pyTruthy data = false then .ok ""
  else
    match pyIter data with
    | .error e => .error e
    | .ok items =>
      match exMapList apBlockOne items with
      | .error e => .error e
      | .ok blocks => .ok (String.join blocks)

/-- One assessment/plan block of `format_ap_card_model`. -/
def apBlockCard (item : JVal) : Except String String :=
  match item with
  | .obj ikvs =>
    let concerns := dictGet ikvs "concerns"
    let assessmentSection := pyOr (dictGet ikvs "assessment") (.obj [])
    let assessmentText :=
      match assessmentSection with
      | .obj akvs => dictGet akvs "assessment"
      | v => v
    let planSection := pyOr (dictGet ikvs "plan") (.obj [])
    let planParts :=
      match planSection with
      | .obj pkvs =>
          String.join (pkvs.map (fun kv =>
            if pyTruthy kv.2 = false then ""
            else
              let val :=
                match kv.2 with
                | .arr xs => String.intercalate ", " ((xs.filter pyTruthy).map safe)
                | v => safe v
              "<p><strong>" ++ safe (.str kv.1) ++ ":</strong> " ++ val ++ "</p>"))
      | v => "<p>" ++ safe v ++ "</p>"
    let aParts :=
      (if pyTruthy concerns then
        let cv :=
          match concerns with
          | .arr xs => String.intercalate ", " ((xs.filter pyTruthy).map safe)
          | v => safe v
        "<p><strong>Concerns:</strong> " ++ cv ++ "</p>"
      else "")
      ++ (if pyTruthy assessmentText then "<p>" ++ safe assessmentText ++ "</p>" else "")
    .ok ("<div class=\x22display_grid gap-16\x22>"
      ++ "<div>"
      ++ "<h4 style=\x22text-decoration: underline; text-underline-offset: 4px;\x22>Assessments</h4>"
      ++ aParts
      ++ "</div>"
      ++ "<div>"
      ++ "<h4 style=\x22text-decoration: underline; text-underline-offset: 4px;\x22>Plans</h4>"
      ++ planParts
      ++ "</div>"
      ++ "</div>")
  | _ => .error "AttributeError"

/-- The function `format_ap_card_model` from the script. -/
def format_ap_card_model (data : JVal) : Except String String :=
  if pyTruthy data = false then .ok ""
  else
    match pyIter data with
    | .error e => .error e
    | .ok items =>
      match exMapList apBlockCard items with
      | .error e => .error e
      | .ok blocks => .ok (String.join blocks)

/-- The five `(name, left, right)` section rows built by `render_sections`,
evaluated in the script's order; the first exception raised while extracting
a field or formatting it aborts the whole build. -/
def sectionsOf (m1 cm : JVal) : Except String (List (String × String × String)) :=
  match objGet m1 "PatientHistory" with
  | .error e => .error e
  | .ok phv1 =>
  match objGet cm "PatientHistory" with
  | .error e => .error e
  | .ok phv2 =>
  match format_patient_history_card_model phv2 with
  | .error e => .error e
  | .ok ph2 =>
  match objGet m1 "TPR" with
  | .error e => .error e
  | .ok tprv1 =>
  match format_tpr_model_one tprv1 with
  | .error e => .error e
  | .ok tpr1 =>
  match objGet cm "TPR" with
  | .error e => .error e
  | .ok tprv2 =>
  match format_tpr_card_model tprv2 with
  | .error e => .error e
  | .ok tpr2 =>
  match objGet m1 "PhysicalExamFindings" with
  | .error e => .error e
  | .ok pefv1 =>
  match format_pef_model_one pefv1 with
  | .error e => .error e
  | .ok pef1 =>
  match objGet cm "PhysicalExamFindings" with
  | .error e => .error e
  | .ok pefv2 =>
  match format_pef_card_model pefv2 with
  | .error e => .error e
  | .ok pef2 =>
  match objGet cm "HealthStatusAssessment" with
  | .error e => .error e
  | .ok hsav =>
  match objGet m1 "AssessmentAndPlan" with
  | .error e => .error e
  | .ok apv1 =>
  match format_ap_model_one apv1 with
  | .error e => .error e
  | .ok ap1 =>
  match objGet cm "AssessmentAndPlan" with
  | .error e => .error e
  | .ok apv2 =>
  match format_ap_card_model apv2 with
  | .error e => .error e
  | .ok ap2 =>
    .ok [("Patient History", format_patient_history_model_one phv1, ph2),
         ("Vitals", tpr1, tpr2),
         ("Physical Exam Findings", pef1, pef2),
         ("HSA", "", format_hsa_card_model hsav),
         ("Assessment and Plan", ap1, ap2)]

/-- The markup of one comparison section: underlined heading, then the
`Original AI Output` table on the left and the `Sent to WOOFware` table on
the right. -/
def sectionHtml (s : String × String × String) : String :=
  "<section class=\x22display_grid gap-16\x22 style=\x22margin-bottom: 16px;\x22>"
    ++ "<h3 style=\x22text-decoration: underline; text-transform: uppercase; letter-spacing: 1px; text-underline-offset: 4px;\x22>" ++ s.1 ++ "</h3>"
    ++ "<div class=\x22display_grid grid-template-columns_1fr_1fr gap-16\x22>"
    ++ "<table><thead><tr><th>Original AI Output</th></tr></thead>"
    ++ "<tbody><tr><td>" ++ s.2.1 ++ "</td></tr></tbody></table>"
    ++ "<table><thead><tr><th>Sent to WOOFware</th></tr></thead>"
    ++ "<tbody><tr><td>" ++ s.2.2 ++ "</td></tr></tbody></table>"
    ++ "</div></section>"

/-- The body of `render_sections` after the two model strings have been
parsed. -/
def renderFromParsed (m1 cm : JVal) : Except String String :=
  match sectionsOf m1 cm with
  | .error e => .error e
  | .ok secs =>
      .ok ("<section class=\x22note-section\x22>" ++ String.join (secs.map sectionHtml) ++ "</section>")

/-- Model of `json.loads(model_str) if model_str else` the empty dict, applied to whatever sits in
the scribe field: falsy values give an empty dict without parsing, truthy
strings are parsed, any other truthy value makes `json.loads` raise
`TypeError`. -/
def loadModel (jsonLoadsFn : String → Except String JVal) (v : JVal) : Except String JVal :=
  if pyTruthy v = false then .ok (.obj [])
  else
    match v with
    | .str s => jsonLoadsFn s
    | _ => .error "TypeError"

/-- Skip JSON whitespace. -/
def skipWs (cs : List Char) : List Char :=
  cs.dropWhile (fun c => c = ' ' ∨ c = Char.ofNat 9 ∨ c = Char.ofNat 10 ∨ c = Char.ofNat 13)

/-- Value of a hexadecimal digit. -/
def hexVal (c : Char) : Option Nat :=
  if c.isDigit then some (c.toNat - 48)
  else if 'a' ≤ c ∧ c ≤ 'f' then some (c.toNat - 87)
  else if 'A' ≤ c ∧ c ≤ 'F' then some (c.toNat - 55)
  else none

/-- The character denoted by a simple JSON string escape. -/
def escMap (e : Char) : Option Char :=
  if e = quoteChar then some quoteChar
  else if e = bslashChar then some bslashChar
  else if e = '/' then some '/'
  else if e = 'b' then some (Char.ofNat 8)
  else if e = 'f' then some (Char.ofNat 12)
  else if e = 'n' then some (Char.ofNat 10)
  else if e = 'r' then some (Char.ofNat 13)
  else if e = 't' then some (Char.ofNat 9)
  else none

/-- Parse the body of a JSON string after the opening quote, returning the
decoded characters and the rest of the input. -/
def parseStrChars : List Char → Except String (List Char × List Char)
  | [] => .error "Unterminated string"
  | c :: rest =>
    if c = quoteChar then .ok ([], rest)
    else if c = bslashChar then
      match rest with
      | [] => .error "Unterminated string"
      | e :: rest2 =>
        if e = 'u' then
          match rest2 with
          | a :: b :: c2 :: d :: rest3 =>
            match hexVal a, hexVal b, hexVal c2, hexVal d with
            | some ha, some hb, some hc, some hd =>
              (match parseStrChars rest3 with
              | .ok (cs, rem) =>
                  .ok (Char.ofNat (((ha * 16 + hb) * 16 + hc) * 16 + hd) :: cs, rem)
              | .error msg => .error msg)
            | _, _, _, _ => .error "Invalid unicode escape"
          | _ => .error "Invalid unicode escape"
        else
          match escMap e with
          | some ec =>
            (match parseStrChars rest2 with
            | .ok (cs, rem) => .ok (ec :: cs, rem)
            | .error msg => .error msg)
          | none => .error "Invalid escape"
    else
      match parseStrChars rest with
      | .ok (cs, rem) => .ok (c :: cs, rem)
      | .error msg => .error msg

/-- Decimal value of a digit string. -/
def digitsToNat (ds : List Char) : Nat :=
  ds.foldl (fun a c => a * 10 + (c.toNat - 48)) 0

/-- Parse a JSON integer literal (the records contain no fractional
numbers; a fraction or exponent is rejected). -/
def parseNum (cs : List Char) : Except String (JVal × List Char) :=
  let p := match cs with
    | c :: rest => if c = '-' then (true, rest) else (false, cs)
    | [] => (false, cs)
  let ds := p.2.takeWhile Char.isDigit
  let rest := p.2.dropWhile Char.isDigit
  if ds.isEmpty then .error "Expecting value"
  else if ds.length > 1 ∧ ds.head? = some '0' then .error "Expecting value"
  else
    match rest with
    | c :: _ =>
      if c = '.' ∨ c = 'e' ∨ c = 'E' then .error "Unsupported number"
      else .ok (.int (if p.1 then -(Int.ofNat (digitsToNat ds)) else Int.ofNat (digitsToNat ds)), rest)
    | [] => .ok (.int (if p.1 then -(Int.ofNat (digitsToNat ds)) else Int.ofNat (digitsToNat ds)), rest)

/-- Insert a key/value pair as Python dict construction does: an existing
key keeps its position and gets the new value, a new key is appended. -/
def objInsert (kvs : List (String × JVal)) (k : String) (v : JVal) : List (String × JVal) :=
  if (kvs.map Prod.fst).contains k then
    kvs.map (fun kv => if kv.1 == k then (kv.1, v) else kv)
  else kvs ++ [(k, v)]

/-- Build a dict from parsed pairs, later duplicates overwriting earlier
ones as in Python. -/
def objFromPairs (ps : List (String × JVal)) : List (String × JVal) :=
  ps.foldl (fun acc kv => objInsert acc kv.1 kv.2) []

/-- Intermediate results of the JSON parser. -/
inductive PRes where
  | v (x : JVal)
  | elems (xs : List JVal)
  | fields (kvs : List (String × JVal))

/-- Fuel-bounded recursive-descent JSON parser, modelling `json.loads`.
Mode 0 parses a value; mode 1 parses array items after `[`; mode 2 parses
an array tail after an item; mode 3 parses object members after the opening
brace; mode 4 parses an object tail after a member. -/
def parseP : Nat → Nat → List Char → Except String (PRes × List Char)
  | 0, _, _ => .error "Expecting value"
  | fuel+1, 0, cs =>
    (match skipWs cs with
    | 'n' :: 'u' :: 'l' :: 'l' :: rest => .ok (.v .null, rest)
    | 't' :: 'r' :: 'u' :: 'e' :: rest => .ok (.v (.bool true), rest)
    | 'f' :: 'a' :: 'l' :: 's' :: 'e' :: rest => .ok (.v (.bool false), rest)
    | c :: rest =>
      if c = quoteChar then
        match parseStrChars rest with
        | .error e => .error e
        | .ok (scs, rem) => .ok (.v (.str (String.mk scs)), rem)
      else if c = lbraceChar then
        match parseP fuel 3 rest with
        | .error e => .error e
        | .ok (.fields kvs, rem) => .ok (.v (.obj (objFromPairs kvs)), rem)
        | .ok _ => .error "Expecting value"
      else if c = '[' then
        match parseP fuel 1 rest with
        | .error e => .error e
        | .ok (.elems xs, rem) => .ok (.v (.arr xs), rem)
        | .ok _ => .error "Expecting value"
      else if c = '-' ∨ c.isDigit then
        match parseNum (c :: rest) with
        | .error e => .error e
        | .ok (jv, rem) => .ok (.v jv, rem)
      else .error "Expecting value"
    | [] => .error "Expecting value")
  | fuel+1, 1, cs =>
    (match skipWs cs with
    | c :: rest =>
      if c = ']' then .ok (.elems [], rest)
      else
        match parseP fuel 0 (c :: rest) with
        | .error e => .error e
        | .ok (.v x, rem) =>
          (match parseP fuel 2 rem with
          | .error e => .error e
          | .ok (.elems xs, rem2) => .ok (.elems (x :: xs), rem2)
          | .ok _ => .error "Expecting value")
        | .ok _ => .error "Expecting value"
    | [] => .error "Expecting value")
  | fuel+1, 2, cs =>
    (match skipWs cs with
    | c :: rest =>
      if c = ']' then .ok (.elems [], rest)
      else if c = ',' then
        match parseP fuel 0 rest with
        | .error e => .error e
        | .ok (.v x, rem) =>
          (match parseP fuel 2 rem with
          | .error e => .error e
          | .ok (.elems xs, rem2) => .ok (.elems (x :: xs), rem2)
          | .ok _ => .error "Expecting value")
        | .ok _ => .error "Expecting value"
      else .error "Expecting delimiter"
    | [] => .error "Expecting delimiter")
  | fuel+1, 3, cs =>
    (match skipWs cs with
    | c :: rest =>
      if c = rbraceChar then .ok (.fields [], rest)
      else if c = quoteChar then
        match parseStrChars rest with
        | .error e => .error e
        | .ok (kcs, rem) =>
          (match skipWs rem with
          | c2 :: rem2 =>
            if c2 = ':' then
              match parseP fuel 0 rem2 with
              | .error e => .error e
              | .ok (.v x, rem3) =>
                (match parseP fuel 4 rem3 with
                | .error e => .error e
                | .ok (.fields kvs, rem4) => .ok (.fields ((String.mk kcs, x) :: kvs), rem4)
                | .ok _ => .error "Expecting value")
              | .ok _ => .error "Expecting value"
            else .error "Expecting colon delimiter"
          | [] => .error "Expecting colon delimiter")
      else .error "Expecting property name"
    | [] => .error "Expecting property name")
  | fuel+1, _, cs =>
    (match skipWs cs with
    | c :: rest =>
      if c = rbraceChar then .ok (.fields [], rest)
      else if c = ',' then
        match skipWs rest with
        | c2 :: rem =>
          if c2 = quoteChar then
            match parseStrChars rem with
            | .error e => .error e
            | .ok (kcs, rem2) =>
              (match skipWs rem2 with
              | c3 :: rem3 =>
                if c3 = ':' then
                  match parseP fuel 0 rem3 with
                  | .error e => .error e
                  | .ok (.v x, rem4) =>
                    (match parseP fuel 4 rem4 with
                    | .error e => .error e
                    | .ok (.fields kvs, rem5) => .ok (.fields ((String.mk kcs, x) :: kvs), rem5)
                    | .ok _ => .error "Expecting value")
                  | .ok _ => .error "Expecting value"
                else .error "Expecting colon delimiter"
              | [] => .error "Expecting colon delimiter")
          else .error "Expecting property name"
        | [] => .error "Expecting property name"
      else .error "Expecting delimiter"
    | [] => .error "Expecting delimiter")

/-- Model of `json.loads`: the fuel-bounded parser with generous fuel
and a trailing-garbage check. -/
def jsonLoads (s : String) : Except String JVal :=
  let cs := s.toList
  match parseP (2 * cs.length + 16) 0 cs with
  | .ok (.v x, rest) =>
      if (skipWs rest).isEmpty then .ok x else .error "Extra data"
  | .ok _ => .error "Expecting value"
  | .error m => .error m

/-- The body of `render_sections` applied to whatever the scribe dict holds in the two
model fields (Python is dynamically typed, so any value can arrive even
though the annotation says `str`). -/
def renderSectionsAny (a b : JVal) : Except String String :=
  match loadModel jsonLoads a with
  | .error e => .error e
  | .ok m1 =>
    match loadModel jsonLoads b with
    | .error e => .error e
    | .ok cm => renderFromParsed m1 cm

/-- The function `render_sections` from the script, on string arguments as annotated. -/
def render_sections (s1 s2 : String) : Except String String :=
  renderSectionsAny (.str s1) (.str s2)

/-- The four fixed pieces the report starts with: doctype, head opening,
stylesheet and body opening. -/
def headerPieces : List String :=
  ["<!DOCTYPE html>",
   "<html><head><meta charset=\x27utf-8\x27>",
   "<style>body\x7bfont-family:Arial;margin:20px auto;max-width:900px\x7d"
     ++ " table\x7bborder-collapse:collapse;width:100%\x7d"
     ++ " th,td\x7bborder:1px solid #ccc;padding:8px;text-align:left;vertical-align:top;white-space:pre-wrap;word-break:break-word\x7d"
     ++ " .transcription\x7bborder:1px solid #ccc;padding:10px;margin:20px 0\x7d"
     ++ " .note-section\x7bborder:1px solid #ccc;padding:16px;margin:20px 0\x7d"
     ++ " .display_grid\x7bdisplay:grid\x7d"
     ++ " .gap-16\x7bgap:16px\x7d"
     ++ " .display_flex\x7bdisplay:flex\x7d"
     ++ " .grid-template-columns_1fr_1fr\x7bgrid-template-columns:1fr 1fr\x7d"
     ++ " .note-section table th\x7bbackground:#f0f0f0\x7d"
     ++ "</style>",
   "</head><body>"]

/-- The `(label, key)` pairs of the appointment metadata rows. -/
def apptFields : List (String × String) :=
  [("Client First Name", "clientFirstName"),
   ("Client Last Name", "clientLastName"),
   ("Pet Name", "petName"),
   ("Chart Number", "chartNumber"),
   ("Hospital ID", "hospitalId"),
   ("Hospital Name", "hospitalName"),
   ("Gender ID", "genderId"),
   ("Species ID", "speciesId"),
   ("Species Name", "speciesName"),
   ("Breeds", "breeds"),
   ("Sex", "sex"),
   ("Neutered", "neutered"),
   ("Pet Age", "petAge")]

/-- The `(label, key)` pairs of the per-scribe identifying rows. -/
def scribeFields : List (String × String) :=
  [("Scribe ID", "scribeId"),
   ("Appointment ID", "appointmentId"),
   ("Recorded Duration", "recordedDuration"),
   ("Scribe Title", "scribeTitle"),
   ("Created By", "createdBy"),
   ("Updated By", "updatedBy"),
   ("Created Time", "createdTime"),
   ("Patient ID", "patientId"),
   ("Pet Appointment ID", "petAppointmentId"),
   ("Patient Name", "patientName"),
   ("Exam ID", "examId"),
   ("Medical Note ID", "medicalNoteId"),
   ("Resource Name", "resourceName")]

/-- The `appt_rows` list: each metadata label with the `safe`d field. -/
def rowsOf (akvs : List (String × JVal)) : List (String × String) :=
  apptFields.map (fun f => (f.1, safe (dictGet akvs f.2)))

/-- The rows `scribe_info` gains for one scribe. -/
def scribeInfo (skvs : List (String × JVal)) : List (String × String) :=
  scribeFields.map (fun f => (f.1, safe (dictGet skvs f.2)))

/-- One `<tr><th>label</th><td>value</td></tr>` table row. -/
def rowHtml (kv : String × String) : String :=
  "<tr><th>" ++ kv.1 ++ "</th><td>" ++ kv.2 ++ "</td></tr>"

/-- Processing of one scribe inside the appointment loop: its identifying
rows, its escaped transcription text, and its rendered note sections. -/
def scribeStep (scribe : JVal) : Except String (List (String × String) × String × String) :=
  match scribe with
  | .obj skvs =>
    let info := scribeInfo skvs
    let trans := safe (dictGet skvs "transcriptionText")
    match renderSectionsAny (dictGetD skvs "transcriptionModelOne" (.str ""))
        (dictGetD skvs "transcriptionCardModel" (.str "")) with
    | .error e => .error e
    | .ok tbl => .ok (info, trans, tbl)
  | _ => .error "AttributeError"

/-- The transcription block emitted before a scribe's note sections. -/
def transcriptionDiv (trans : String) : String :=
  "<div class=\x27transcription\x27><h2>Transcription</h2><p>" ++ trans ++ "</p></div>"

/-- The report pieces contributed by one appointment: heading, the
metadata table (appointment rows followed by every scribe's identifying
rows), then one transcription block and note-section markup per scribe. -/
def renderAppt (appt : JVal) : Except String (List String) :=
  match appt with
  | .obj akvs =>
    match pyIter (dictGetD akvs "scribes" (.arr [])) with
    | .error e => .error e
    | .ok scribes =>
      match exMapList scribeStep scribes with
      | .error e => .error e
      | .ok steps =>
          .ok (["<h1>Appointment and Patient Information</h1>", "<table>"]
            ++ ((rowsOf akvs ++ (steps.map (fun st => st.1)).flatten).map rowHtml)
            ++ ["</table>"]
            ++ (steps.map (fun st => [transcriptionDiv st.2.1, st.2.2])).flatten)
  | _ => .error "AttributeError"

/-- The function `render_html` from the script: the fixed header pieces, the pieces of
every appointment under the payload's `data` key, and the closing tag,
joined with newlines. -/
def render_html (payload : JVal) : Except String String :=
  match payload with
  | .obj pkvs =>
    match pyIter (dictGetD pkvs "data" (.arr [])) with
    | .error e => .error e
    | .ok appts =>
      match exMapList renderAppt appts with
      | .error e => .error e
      | .ok chunks =>
          .ok (String.intercalate "\n" (headerPieces ++ chunks.flatten ++ ["</body></html>"]))
  | _ => .error "AttributeError"

/-- The function `process_file` without the file system: parse the file's text, render
the report.  The result is what gets written to the output file. -/
def processContent (c : String) : Except String String :=
  match jsonLoads c with
  | .error e => .error e
  | .ok payload => render_html payload

/-- Model of the `pathlib` `suffix` of a file name: from the last dot, provided that
dot is neither the first nor the last character. -/
def suffixOf (name : String) : String :=
  let cs := name.toList
  match ((cs.enum.filter (fun p => p.2 = '.')).map Prod.fst).getLast? with
  | some i => if 0 < i ∧ i < cs.length - 1 then String.mk (cs.drop i) else ""
  | none => ""

/-- Model of the `pathlib` `stem` of a file name: the name without its suffix. -/
def stemOf (name : String) : String :=
  let cs := name.toList
  match ((cs.enum.filter (fun p => p.2 = '.')).map Prod.fst).getLast? with
  | some i => if 0 < i ∧ i < cs.length - 1 then String.mk (cs.take i) else name
  | none => name

/-- The file filter of `main`: only suffixes `.json` and `.txt`,
case-insensitively. -/
def selectedFile (name : String) : Bool :=
  asciiLower (suffixOf name) == ".json" || asciiLower (suffixOf name) == ".txt"

/-- The function `main` from the script, over the directory listing modelled as a list
of `(file name, file content)` pairs: files with other suffixes are
skipped, each selected file is parsed and rendered into a write of
`stem + ".html"`, and the first exception aborts the run (nothing of an
aborted run is reported). -/
def mainModel : List (String × String) → Except String (List (String × String))
  | [] => .ok []
  | f :: rest =>
    if selectedFile f.1 then
      match processContent f.2 with
      | .error e => .error e
      | .ok h =>
        match mainModel rest with
        | .error e => .error e
        | .ok ws => .ok ((stemOf f.1 ++ ".html", h) :: ws)
    else mainModel rest

/-- Python numeric view of a value: booleans are the integers 0 and 1. -/
def pyNum : JVal → Option Int
  | .bool b => some (if b then 1 else 0)
  | .int n => some n
  | _ => none

/-- Fuel-bounded model of Python `==` on JSON-derived values: numeric
cross-equality between booleans and integers, pointwise equality of lists,
and order-insensitive equality of (duplicate-free) dicts. -/
def pyEqF : Nat → JVal → JVal → Bool
  | 0, _, _ => false
  | fuel+1, a, b =>
    match pyNum a, pyNum b with
    | some x, some y => x == y
    | _, _ =>
      match a, b with
      | .null, .null => true
      | .str s, .str t => s == t
      | .arr xs, .arr ys =>
          xs.length == ys.length
            && (List.zip xs ys).all (fun p => pyEqF fuel p.1 p.2)
      | .obj kvs, .obj lvs =>
          kvs.length == lvs.length
            && kvs.all (fun kv =>
                match lvs.find? (fun lv => lv.1 == kv.1) with
                | some lv => pyEqF fuel kv.2 lv.2
                | none => false)
      | _, _ => false

/-- Python `==` on JSON-derived values, with sufficient fuel. -/
def pyEq (a b : JVal) : Bool := pyEqF (jsize a + jsize b) a b

/-- Decidable equality of rendering results, so that concrete outputs can
be compared by `decide`. -/
instance : DecidableEq (Except String String) := fun a b =>
  match a, b with
  | .ok x, .ok y =>
      if h : x = y then .isTrue (by rw [h]) else .isFalse (fun c => h (Except.ok.inj c))
  | .error x, .error y =>
      if h : x = y then .isTrue (by rw [h]) else .isFalse (fun c => h (Except.error.inj c))
  | .ok _, .error _ => .isFalse (fun c => Except.noConfusion c)
  | .error _, .ok _ => .isFalse (fun c => Except.noConfusion c)

theorem string_foldl_append (l : List String) :
    ∀ acc : String, l.foldl (fun r s => r ++ s) acc = acc ++ l.foldl (fun r s => r ++ s) "" := by
  induction l with
  | nil => intro acc; simp [List.foldl]
  | cons s l ih =>
      intro acc
      show l.foldl (fun r s => r ++ s) (acc ++ s) = acc ++ (l.foldl (fun r s => r ++ s) ("" ++ s))
      rw [ih (acc ++ s), ih ("" ++ s), String.append_assoc]
      simp [String.empty_append]

theorem string_join_cons (a : String) (l : List String) :
    String.join (a :: l) = a ++ String.join l := by
  show (a :: l).foldl (fun r s => r ++ s) "" = a ++ l.foldl (fun r s => r ++ s) ""
  show l.foldl (fun r s => r ++ s) ("" ++ a) = a ++ l.foldl (fun r s => r ++ s) ""
  rw [string_foldl_append l ("" ++ a), String.empty_append]

theorem to_htmlKVs_eq_join (kvs : List (String × JVal)) :
    to_htmlKVs kvs
      = String.join (kvs.map (fun kv =>
          "<li><strong>" ++ escape kv.1 ++ ":</strong> " ++ to_html kv.2 ++ "</li>")) := by
  induction kvs with
  | nil => rfl
  | cons kv kvs ih =>
      rw [List.map_cons, string_join_cons, to_htmlKVs, ih]

theorem to_htmlArr_eq_join (xs : List JVal) :
    to_htmlArr xs
      = String.join (xs.map (fun x => "<li>" ++ to_html x ++ "</li>")) := by
  induction xs with
  | nil => rfl
  | cons x xs ih =>
      rw [List.map_cons, string_join_cons, to_htmlArr, ih]

theorem one_le_jsize (v : JVal) : 1 ≤ jsize v := by
  cases v <;> simp [jsize]

theorem jsize_le_jsizeArr {x : JVal} :
    ∀ {xs : List JVal}, x ∈ xs → jsize x ≤ jsizeArr xs := by
  intro xs
  induction xs with
  | nil => intro h; cases h
  | cons y ys ih =>
      intro h
      rw [List.mem_cons] at h
      rcases h with rfl | h
      · simp [jsizeArr]
      · have := ih h
        simp [jsizeArr]
        omega

theorem jsize_le_jsizeKVs {kv : String × JVal} :
    ∀ {kvs : List (String × JVal)}, kv ∈ kvs → jsize kv.2 ≤ jsizeKVs kvs := by
  intro kvs
  induction kvs with
  | nil => intro h; cases h
  | cons lv lvs ih =>
      intro h
      rw [List.mem_cons] at h
      rcases h with rfl | h
      · simp [jsizeKVs]
      · have := ih h
        simp [jsizeKVs]
        omega

theorem opMapList_eq_map {α β : Type} {f : α → Option β} {g : α → β} :
    ∀ {xs : List α}, (∀ x ∈ xs, f x = some (g x)) → opMapList f xs = some (xs.map g) := by
  intro xs
  induction xs with
  | nil => intro _; rfl
  | cons x xs ih =>
      intro h
      have hx : f x = some (g x) := h x (by simp)
      have hxs := ih (fun y hy => h y (by simp [hy]))
      simp [opMapList, hx, hxs]

theorem to_htmlF_complete : ∀ (fuel : Nat) (v : JVal), jsize v ≤ fuel →
    to_htmlF fuel v = some (to_html v) := by
  intro fuel
  induction fuel with
  | zero =>
      intro v h
      have := one_le_jsize v
      omega
  | succ fuel ih =>
      intro v h
      cases v with
      | null => rfl
      | bool b => rfl
      | int n => rfl
      | str s =>
          by_cases hs : s = "" <;> simp [to_htmlF, to_html, hs]
      | obj kvs =>
          have hchild : ∀ kv ∈ kvs,
              (fun kv : String × JVal =>
                match to_htmlF fuel kv.2 with
                | none => none
                | some ih => some ("<li><strong>" ++ escape kv.1 ++ ":</strong> " ++ ih ++ "</li>")) kv
              = some ("<li><strong>" ++ escape kv.1 ++ ":</strong> " ++ to_html kv.2 ++ "</li>") := by
            intro kv hkv
            have hle : jsize kv.2 ≤ fuel := by
              have h1 := jsize_le_jsizeKVs hkv
              have h2 : jsize (JVal.obj kvs) = 1 + jsizeKVs kvs := by simp [jsize]
              omega
            simp [ih kv.2 hle]
          rw [to_htmlF, opMapList_eq_map hchild]
          simp [to_html, to_htmlKVs_eq_join]
      | arr xs =>
          have hchild : ∀ x ∈ xs,
              (fun x : JVal =>
                match to_htmlF fuel x with
                | none => none
                | some ih => some ("<li>" ++ ih ++ "</li>")) x
              = some ("<li>" ++ to_html x ++ "</li>") := by
            intro x hx
            have hle : jsize x ≤ fuel := by
              have h1 := jsize_le_jsizeArr hx
              have h2 : jsize (JVal.arr xs) = 1 + jsizeArr xs := by simp [jsize]
              omega
            simp [ih x hle]
          rw [to_htmlF, opMapList_eq_map hchild]
          simp [to_html, to_htmlArr_eq_join]

/-- C2: for every JSON value, `to_html` renders it recursively into nested
list markup: `None` and the empty string yield the empty string; a dict
yields a `<ul>` whose `<li>` items contain the escaped key in `<strong>`
followed by the recursive rendering of the value, in the dict's key order;
a list yields a `<ul>` with one `<li>` per element containing the element's
recursive rendering; any other scalar yields its HTML-escaped string
form. -/
theorem to_html_renders_spec :
    (to_html .null = "")
    ∧ (to_html (.str "") = "")
    ∧ (∀ kvs : List (String × JVal),
        to_html (.obj kvs)
          = "<ul>" ++ String.join (kvs.map (fun kv =>
              "<li><strong>" ++ escape kv.1 ++ ":</strong> " ++ to_html kv.2 ++ "</li>")) ++ "</ul>")
    ∧ (∀ xs : List JVal,
        to_html (.arr xs)
          = "<ul>" ++ String.join (xs.map (fun x => "<li>" ++ to_html x ++ "</li>")) ++ "</ul>")
    ∧ (∀ v : JVal, isContainer v = false → v ≠ .null → v ≠ .str "" →
        to_html v = escape (pyStr v)) := by
  refine ⟨rfl, rfl, ?_, ?_, ?_⟩
  · intro kvs
    rw [show to_html (.obj kvs) = "<ul>" ++ to_htmlKVs kvs ++ "</ul>" from rfl,
      to_htmlKVs_eq_join]
  · intro xs
    rw [show to_html (.arr xs) = "<ul>" ++ to_htmlArr xs ++ "</ul>" from rfl,
      to_htmlArr_eq_join]
  · intro v h h1 h2
    cases v with
    | null => exact absurd rfl h1
    | bool b => rfl
    | int n => rfl
    | str s =>
        have hs : s ≠ "" := fun c => h2 (by rw [c])
        simp [to_html, pyStr, hs]
    | arr xs => simp [isContainer] at h
    | obj kvs => simp [isContainer] at h

theorem to_html_renders_spec_witness :
    (to_html (.obj [("a", .int 1)])
      = "<ul>" ++ String.join ([("a", JVal.int 1)].map (fun kv =>
          "<li><strong>" ++ escape kv.1 ++ ":</strong> " ++ to_html kv.2 ++ "</li>")) ++ "</ul>")
    ∧ (isContainer (JVal.int 5) = false ∧ to_html (.int 5) = escape (pyStr (.int 5))) :=
  ⟨to_html_renders_spec.2.2.1 [("a", .int 1)],
   rfl,
   to_html_renders_spec.2.2.2.2 (.int 5) rfl
     (fun h => JVal.noConfusion h) (fun h => JVal.noConfusion h)⟩

/-- C6: `to_html` is a total terminating function on every finite JSON
tree: with the call stack modelled by fuel, fuel equal to the structural
size of the value always suffices, so the recursion is well-founded on the
structure of the value and always produces a result. -/
theorem to_html_terminates (v : JVal) (fuel : Nat) (h : jsize v ≤ fuel) :
    to_htmlF fuel v = some (to_html v) :=
  to_htmlF_complete fuel v h

theorem to_html_terminates_witness :
    jsize (JVal.arr [.obj [("k", .int 5)], .null]) ≤ 10
      ∧ to_htmlF 10 (JVal.arr [.obj [("k", .int 5)], .null])
          = some (to_html (JVal.arr [.obj [("k", .int 5)], .null])) :=
  ⟨by decide, to_html_terminates _ 10 (by decide)⟩

/-- C10: on every non-container value (neither dict nor list, including
`None`, the empty string, `0` and `False`), `to_html` and `safe` agree. -/
theorem to_html_eq_safe_on_scalars (v : JVal) (h : isContainer v = false) :
    to_html v = safe v := by
  cases v with
  | null => rfl
  | bool b => rfl
  | int n => rfl
  | str s =>
      by_cases hs : s = ""
      · rw [hs]; rfl
      · simp [to_html, safe, pyStr, hs]
  | arr xs => simp [isContainer] at h
  | obj kvs => simp [isContainer] at h

theorem to_html_eq_safe_on_scalars_witness :
    (isContainer (JVal.int 0) = false ∧ to_html (.int 0) = safe (.int 0))
    ∧ (isContainer (JVal.bool false) = false ∧ to_html (.bool false) = safe (.bool false))
    ∧ (isContainer JVal.null = false ∧ to_html .null = safe .null)
    ∧ (isContainer (JVal.str "") = false ∧ to_html (.str "") = safe (.str "")) :=
  ⟨⟨rfl, to_html_eq_safe_on_scalars _ rfl⟩,
   ⟨rfl, to_html_eq_safe_on_scalars _ rfl⟩,
   ⟨rfl, to_html_eq_safe_on_scalars _ rfl⟩,
   ⟨rfl, to_html_eq_safe_on_scalars _ rfl⟩⟩

/-- C1 counterexample: an unparsable embedded model string makes
`render_sections` propagate the parse error rather than return markup with
a placeholder message, and an unparsable payload likewise propagates out of
`process_file`; the script contains no handler. -/
theorem parse_failure_not_caught :
    render_sections "nope" "" = .error "Expecting value"
    ∧ processContent "nope" = .error "Expecting value" :=
  ⟨rfl, rfl⟩

/-- C1 (amended): no parse failure is caught anywhere: a non-empty model
string that fails to parse as JSON makes `render_sections` raise that very
error, and a payload that fails to parse makes `process_file` raise it; an
empty (falsy) model string is replaced by an empty dict without parsing.
No placeholder message exists, and no other failure is recovered either. -/
theorem parse_errors_propagate :
    (∀ s cm e, s ≠ "" → jsonLoads s = .error e → render_sections s cm = .error e)
    ∧ (∀ c e, jsonLoads c = .error e → processContent c = .error e) := by
  constructor
  · intro s cm e hs hparse
    have ht : pyTruthy (.str s) = true := by simp [pyTruthy, hs]
    simp [render_sections, renderSectionsAny, loadModel, ht, hparse]
  · intro c e hparse
    simp [processContent, hparse]

theorem parse_errors_propagate_witness :
    ("nope" ≠ ""
      ∧ jsonLoads "nope" = .error "Expecting value"
      ∧ render_sections "nope" "x" = .error "Expecting value")
    ∧ (jsonLoads "[" = .error "Expecting value"
      ∧ processContent "[" = .error "Expecting value") :=
  ⟨⟨by decide, rfl, parse_errors_propagate.1 "nope" "x" "Expecting value" (by decide) rfl⟩,
   ⟨rfl, parse_errors_propagate.2 "[" "Expecting value" rfl⟩⟩

/-- C8: for every input, the model-one column of the Patient History
section and the left column of the HSA section are empty:
`format_patient_history_model_one` returns the empty string
unconditionally, and `render_sections` hard-codes the empty string for
HSA's left side. -/
theorem left_columns_always_empty :
    (∀ v, format_patient_history_model_one v = "")
    ∧ (∀ m1 cm secs, sectionsOf m1 cm = .ok secs →
        (secs[0]?).map (fun s => s.2.1) = some ""
        ∧ (secs[3]?).map (fun s => s.2.1) = some "") := by
  refine ⟨fun v => rfl, ?_⟩
  intro m1 cm secs h
  unfold sectionsOf at h
  repeat' split at h
  all_goals try exact Except.noConfusion h
  injection h with h
  subst h
  exact ⟨rfl, rfl⟩

theorem left_columns_always_empty_witness :
    format_patient_history_model_one (.int 7) = ""
    ∧ sectionsOf (.obj []) (.obj [])
        = .ok [("Patient History", "", ""), ("Vitals", "", ""),
               ("Physical Exam Findings", "", ""), ("HSA", "", ""),
               ("Assessment and Plan", "", "")]
    ∧ (([("Patient History", "", ""), ("Vitals", "", ""),
         ("Physical Exam Findings", "", ""), ("HSA", "", ""),
         ("Assessment and Plan", "", "")] : List (String × String × String))[0]?).map
          (fun s => s.2.1) = some ""
    ∧ (([("Patient History", "", ""), ("Vitals", "", ""),
         ("Physical Exam Findings", "", ""), ("HSA", "", ""),
         ("Assessment and Plan", "", "")] : List (String × String × String))[3]?).map
          (fun s => s.2.1) = some "" := by
  refine ⟨left_columns_always_empty.1 _, rfl, ?_⟩
  have := left_columns_always_empty.2 (.obj []) (.obj []) _ rfl
  exact this

/-- C3: for every scribe entry whose formatting succeeds,
`render_sections` produces exactly five sections in the fixed order
Patient History, Vitals, Physical Exam Findings, HSA, Assessment and Plan;
each section shows the two schema variants side by side, a left table
headed `Original AI Output` holding the model-one rendering and a right
table headed `Sent to WOOFware` holding the card-model rendering of the
same section. -/
theorem render_sections_five_sections :
    ∀ (m1kvs cmkvs : List (String × JVal)) (secs : List (String × String × String)),
      sectionsOf (.obj m1kvs) (.obj cmkvs) = .ok secs →
      secs.map (fun s => s.1)
          = ["Patient History", "Vitals", "Physical Exam Findings", "HSA", "Assessment and Plan"]
      ∧ renderFromParsed (.obj m1kvs) (.obj cmkvs)
          = .ok ("<section class=\x22note-section\x22>"
              ++ String.join (secs.map sectionHtml) ++ "</section>")
      ∧ (∀ name left right, sectionHtml (name, left, right)
          = "<section class=\x22display_grid gap-16\x22 style=\x22margin-bottom: 16px;\x22>"
            ++ "<h3 style=\x22text-decoration: underline; text-transform: uppercase; letter-spacing: 1px; text-underline-offset: 4px;\x22>" ++ name ++ "</h3>"
            ++ "<div class=\x22display_grid grid-template-columns_1fr_1fr gap-16\x22>"
            ++ "<table><thead><tr><th>Original AI Output</th></tr></thead>"
            ++ "<tbody><tr><td>" ++ left ++ "</td></tr></tbody></table>"
            ++ "<table><thead><tr><th>Sent to WOOFware</th></tr></thead>"
            ++ "<tbody><tr><td>" ++ right ++ "</td></tr></tbody></table>"
            ++ "</div></section>")
      ∧ (secs[0]?).map (fun s => s.2.1)
          = some (format_patient_history_model_one (dictGet m1kvs "PatientHistory"))
      ∧ (secs[0]?).map (fun s => Except.ok s.2.2)
          = some (format_patient_history_card_model (dictGet cmkvs "PatientHistory"))
      ∧ (secs[1]?).map (fun s => Except.ok s.2.1)
          = some (format_tpr_model_one (dictGet m1kvs "TPR"))
      ∧ (secs[1]?).map (fun s => Except.ok s.2.2)
          = some (format_tpr_card_model (dictGet cmkvs "TPR"))
      ∧ (secs[2]?).map (fun s => Except.ok s.2.1)
          = some (format_pef_model_one (dictGet m1kvs "PhysicalExamFindings"))
      ∧ (secs[2]?).map (fun s => Except.ok s.2.2)
          = some (format_pef_card_model (dictGet cmkvs "PhysicalExamFindings"))
      ∧ (secs[3]?).map (fun s => s.2.2)
          = some (format_hsa_card_model (dictGet cmkvs "HealthStatusAssessment"))
      ∧ (secs[4]?).map (fun s => Except.ok s.2.1)
          = some (format_ap_model_one (dictGet m1kvs "AssessmentAndPlan"))
      ∧ (secs[4]?).map (fun s => Except.ok s.2.2)
          = some (format_ap_card_model (dictGet cmkvs "AssessmentAndPlan")) := by
  intro m1kvs cmkvs secs h
  have h0 := h
  unfold sectionsOf at h
  simp only [objGet] at h
  rcases h1 : format_patient_history_card_model (dictGet cmkvs "PatientHistory") with e1 | ph2
  · simp only [h1] at h
    exact Except.noConfusion h
  simp only [h1] at h
  rcases h2 : format_tpr_model_one (dictGet m1kvs "TPR") with e2 | tpr1
  · simp only [h2] at h
    exact Except.noConfusion h
  simp only [h2] at h
  rcases h3 : format_tpr_card_model (dictGet cmkvs "TPR") with e3 | tpr2
  · simp only [h3] at h
    exact Except.noConfusion h
  simp only [h3] at h
  rcases h4 : format_pef_model_one (dictGet m1kvs "PhysicalExamFindings") with e4 | pef1
  · simp only [h4] at h
    exact Except.noConfusion h
  simp only [h4] at h
  rcases h5 : format_pef_card_model (dictGet cmkvs "PhysicalExamFindings") with e5 | pef2
  · simp only [h5] at h
    exact Except.noConfusion h
  simp only [h5] at h
  rcases h6 : format_ap_model_one (dictGet m1kvs "AssessmentAndPlan") with e6 | ap1
  · simp only [h6] at h
    exact Except.noConfusion h
  simp only [h6] at h
  rcases h7 : format_ap_card_model (dictGet cmkvs "AssessmentAndPlan") with e7 | ap2
  · simp only [h7] at h
    exact Except.noConfusion h
  simp only [h7] at h
  injection h with h
  subst h
  refine ⟨rfl, ?_, fun name left right => rfl, rfl, ?_, ?_, ?_, ?_, ?_, rfl, ?_, ?_⟩
  · simp [renderFromParsed, h0]
  · simp [h1]
  · simp [h2]
  · simp [h3]
  · simp [h4]
  · simp [h5]
  · simp [h6]
  · simp [h7]

theorem render_sections_five_sections_witness :
    sectionsOf (.obj []) (.obj [])
        = .ok [("Patient History", "", ""), ("Vitals", "", ""),
               ("Physical Exam Findings", "", ""), ("HSA", "", ""),
               ("Assessment and Plan", "", "")]
    ∧ ([("Patient History", "", ""), ("Vitals", "", ""),
        ("Physical Exam Findings", "", ""), ("HSA", "", ""),
        ("Assessment and Plan", "", "")] : List (String × String × String)).map (fun s => s.1)
        = ["Patient History", "Vitals", "Physical Exam Findings", "HSA", "Assessment and Plan"]
    ∧ renderFromParsed (.obj []) (.obj [])
        = .ok ("<section class=\x22note-section\x22>"
            ++ String.join (([("Patient History", "", ""), ("Vitals", "", ""),
                ("Physical Exam Findings", "", ""), ("HSA", "", ""),
                ("Assessment and Plan", "", "")] : List (String × String × String)).map sectionHtml)
            ++ "</section>") :=
  ⟨rfl, (render_sections_five_sections [] [] _ rfl).1,
   (render_sections_five_sections [] [] _ rfl).2.1⟩

theorem dictGetD_of_not_contains {k : String} {d : JVal} :
    ∀ {kvs : List (String × JVal)}, ((kvs.map Prod.fst).contains k = false) →
      dictGetD kvs k d = d := by
  intro kvs
  induction kvs with
  | nil => intro _; rfl
  | cons kv kvs ih =>
      intro h
      rw [List.map_cons, List.contains_cons, Bool.or_eq_false_iff] at h
      have h1 : (kv.1 == k) = false := by
        have h1' := h.1
        rw [beq_eq_false_iff_ne] at h1' ⊢
        exact fun c => h1' c.symm
      have h2 := ih h.2
      unfold dictGetD at h2 ⊢
      rw [List.find?_cons, h1]
      exact h2

/-- C9: `render_html` raises nothing on a payload whose `data` key is
absent (giving the bare boilerplate document) or whose appointments lack a
`scribes` key (the metadata table is still produced, with no transcription
blocks after it). -/
theorem render_html_defined_without_data_or_scribes :
    (∀ pkvs : List (String × JVal), ((pkvs.map Prod.fst).contains "data") = false →
      render_html (.obj pkvs)
        = .ok (String.intercalate "\n" (headerPieces ++ ["</body></html>"])))
    ∧ (∀ akvs : List (String × JVal), ((akvs.map Prod.fst).contains "scribes") = false →
      renderAppt (.obj akvs)
        = .ok (["<h1>Appointment and Patient Information</h1>", "<table>"]
            ++ (rowsOf akvs).map rowHtml ++ ["</table>"])) := by
  constructor
  · intro pkvs h
    have hd : dictGetD pkvs "data" (.arr []) = .arr [] := dictGetD_of_not_contains h
    simp [render_html, hd, pyIter, exMapList]
  · intro akvs h
    have hs : dictGetD akvs "scribes" (.arr []) = .arr [] := dictGetD_of_not_contains h
    simp [renderAppt, hs, pyIter, exMapList]

theorem render_html_defined_without_data_or_scribes_witness :
    ((([("x", JVal.null)] : List (String × JVal)).map Prod.fst).contains "data" = false
      ∧ render_html (.obj [("x", JVal.null)])
          = .ok (String.intercalate "\n" (headerPieces ++ ["</body></html>"])))
    ∧ ((([("petName", JVal.str "Rex")] : List (String × JVal)).map Prod.fst).contains "scribes" = false
      ∧ renderAppt (.obj [("petName", JVal.str "Rex")])
          = .ok (["<h1>Appointment and Patient Information</h1>", "<table>"]
              ++ (rowsOf [("petName", JVal.str "Rex")]).map rowHtml ++ ["</table>"])) :=
  ⟨⟨by decide, render_html_defined_without_data_or_scribes.1 _ (by decide)⟩,
   ⟨by decide, render_html_defined_without_data_or_scribes.2 _ (by decide)⟩⟩

/-- C4: for every appointment record in the payload's `data` list, the
rendered HTML contains, in order, a metadata table holding the
appointment's patient/client rows followed by the identifying rows of each
of its scribes, then, for each scribe, a transcription block followed by
that scribe's rendered note sections. -/
theorem render_html_appointment_structure :
    (∀ (pkvs : List (String × JVal)) (appts : List JVal) (chunks : List (List String)),
      dictGetD pkvs "data" (.arr []) = .arr appts →
      exMapList renderAppt appts = .ok chunks →
      render_html (.obj pkvs)
        = .ok (String.intercalate "\n" (headerPieces ++ chunks.flatten ++ ["</body></html>"])))
    ∧ (∀ (akvs : List (String × JVal)) (scribes : List JVal)
        (steps : List (List (String × String) × String × String)),
      dictGetD akvs "scribes" (.arr []) = .arr scribes →
      exMapList scribeStep scribes = .ok steps →
      renderAppt (.obj akvs)
        = .ok (["<h1>Appointment and Patient Information</h1>", "<table>"]
            ++ ((rowsOf akvs ++ (steps.map (fun st => st.1)).flatten).map rowHtml)
            ++ ["</table>"]
            ++ (steps.map (fun st => [transcriptionDiv st.2.1, st.2.2])).flatten))
    ∧ (∀ (skvs : List (String × JVal)) (info : List (String × String)) (trans tbl : String),
        scribeStep (.obj skvs) = .ok (info, trans, tbl) →
        info = scribeInfo skvs
        ∧ trans = safe (dictGet skvs "transcriptionText")
        ∧ renderSectionsAny (dictGetD skvs "transcriptionModelOne" (.str ""))
            (dictGetD skvs "transcriptionCardModel" (.str "")) = .ok tbl) := by
  refine ⟨?_, ?_, ?_⟩
  · intro pkvs appts chunks h1 h2
    simp [render_html, h1, pyIter, h2]
  · intro akvs scribes steps h1 h2
    simp [renderAppt, h1, pyIter, h2]
  · intro skvs info trans tbl h
    simp only [scribeStep] at h
    rcases hr : renderSectionsAny (dictGetD skvs "transcriptionModelOne" (.str ""))
        (dictGetD skvs "transcriptionCardModel" (.str "")) with e | t
    · rw [hr] at h
      exact Except.noConfusion h
    · rw [hr] at h
      injection h with h
      injection h with ha h
      injection h with hb hc
      exact ⟨ha.symm, hb.symm, congrArg Except.ok hc⟩

theorem render_html_appointment_structure_witness :
    (dictGetD [("data", JVal.arr [JVal.obj []])] "data" (.arr []) = .arr [.obj []]
      ∧ exMapList renderAppt [JVal.obj []]
          = .ok [["<h1>Appointment and Patient Information</h1>", "<table>"]
              ++ (rowsOf []).map rowHtml ++ ["</table>"]]
      ∧ render_html (.obj [("data", JVal.arr [JVal.obj []])])
          = .ok (String.intercalate "\n" (headerPieces
              ++ ([["<h1>Appointment and Patient Information</h1>", "<table>"]
                    ++ (rowsOf []).map rowHtml ++ ["</table>"]] : List (List String)).flatten
              ++ ["</body></html>"])))
    ∧ (dictGetD [] "scribes" (.arr []) = .arr []
      ∧ exMapList scribeStep [] = .ok []
      ∧ renderAppt (.obj [])
          = .ok (["<h1>Appointment and Patient Information</h1>", "<table>"]
              ++ ((rowsOf [] ++ (([] : List (List (String × String) × String × String)).map
                    (fun st => st.1)).flatten).map rowHtml)
              ++ ["</table>"]
              ++ (([] : List (List (String × String) × String × String)).map
                    (fun st => [transcriptionDiv st.2.1, st.2.2])).flatten))
    ∧ (scribeStep (.obj [])
        = .ok (scribeInfo [], safe (dictGet [] "transcriptionText"),
            (match renderSectionsAny (.str "") (.str "") with | .ok s => s | .error e => e))
      ∧ scribeInfo [] = scribeInfo []
      ∧ safe (dictGet [] "transcriptionText") = safe (dictGet [] "transcriptionText")
      ∧ renderSectionsAny (dictGetD [] "transcriptionModelOne" (.str ""))
          (dictGetD [] "transcriptionCardModel" (.str ""))
          = .ok (match renderSectionsAny (.str "") (.str "") with | .ok s => s | .error e => e)) :=
  ⟨⟨rfl, rfl, render_html_appointment_structure.1 _ [.obj []] _ rfl rfl⟩,
   ⟨rfl, rfl, render_html_appointment_structure.2.1 _ [] [] rfl rfl⟩,
   ⟨rfl, render_html_appointment_structure.2.2 [] _ _ _ rfl⟩⟩

/-- C5 counterexample: a `.json` file whose content does not parse produces
no HTML document at all — the run aborts with the parse error — even though
a lone well-formed file would produce its document. -/
theorem main_aborts_on_unparsable_file :
    mainModel [("a.json", "nope"), ("b.json", "\x7b\x7d")] = .error "Expecting value"
    ∧ mainModel [("b.json", "\x7b\x7d")]
        = .ok [("b.html", String.intercalate "\n" (headerPieces ++ ["</body></html>"]))] :=
  ⟨rfl, rfl⟩

/-- C5 (amended): provided every file whose suffix is `.json` or `.txt`
(case-insensitive) parses and renders successfully, the run emits exactly
one HTML document per such file, named with the file's stem plus `.html`,
and files with any other suffix produce no output; a file that fails to
parse or render aborts the run with that error. -/
theorem main_emits_one_html_per_selected_file :
    ∀ files : List (String × String),
      (∀ f ∈ files, selectedFile f.1 = true → ∃ h, processContent f.2 = .ok h) →
      ∃ ws, mainModel files = .ok ws
        ∧ ws.map Prod.fst
            = (files.filter (fun f => selectedFile f.1)).map (fun f => stemOf f.1 ++ ".html") := by
  intro files
  induction files with
  | nil => intro _; exact ⟨[], rfl, rfl⟩
  | cons f rest ih =>
      intro h
      rcases ih (fun g hg hsel => h g (List.mem_cons_of_mem _ hg) hsel) with ⟨ws, hws, hmap⟩
      by_cases hsel : selectedFile f.1 = true
      · rcases h f (List.mem_cons_self _ _) hsel with ⟨html, hhtml⟩
        refine ⟨(stemOf f.1 ++ ".html", html) :: ws, ?_, ?_⟩
        · simp [mainModel, hsel, hhtml, hws]
        · simp [List.filter_cons, hsel, hmap]
      · have hsel' : selectedFile f.1 = false := by simpa using hsel
        refine ⟨ws, ?_, ?_⟩
        · simp [mainModel, hsel', hws]
        · simp [List.filter_cons, hsel', hmap]

theorem main_emits_one_html_per_selected_file_witness :
    (∀ f ∈ ([("b.json", "\x7b\x7d"), ("c.exe", "zzz")] : List (String × String)),
        selectedFile f.1 = true → ∃ h, processContent f.2 = .ok h)
    ∧ ∃ ws, mainModel [("b.json", "\x7b\x7d"), ("c.exe", "zzz")] = .ok ws
        ∧ ws.map Prod.fst
            = (([("b.json", "\x7b\x7d"), ("c.exe", "zzz")] : List (String × String)).filter
                (fun f => selectedFile f.1)).map (fun f => stemOf f.1 ++ ".html") := by
  have hyp : ∀ f ∈ ([("b.json", "\x7b\x7d"), ("c.exe", "zzz")] : List (String × String)),
      selectedFile f.1 = true → ∃ h, processContent f.2 = .ok h := by
    intro f hf hsel
    rcases List.mem_cons.mp hf with rfl | hf2
    · exact ⟨(match processContent "\x7b\x7d" with | .ok s => s | .error e => e), rfl⟩
    rcases List.mem_cons.mp hf2 with rfl | hf3
    · exact absurd hsel (by decide)
    · cases hf3
  exact ⟨hyp, main_emits_one_html_per_selected_file _ hyp⟩

/-- C7 counterexample: two payloads that are equal as Python dicts (`==`
ignores dict key order) render to different HTML, because `str()` of a
dict-valued field exposes its insertion order; so `render_html` is not a
function of the payload's Python equality class. -/
theorem render_html_not_invariant_under_py_eq :
    pyEq (.obj [("data", .arr [.obj [("breeds", .obj [("x", .int 1), ("y", .int 2)])]])])
         (.obj [("data", .arr [.obj [("breeds", .obj [("y", .int 2), ("x", .int 1)])]])]) = true
    ∧ render_html (.obj [("data", .arr [.obj [("breeds", .obj [("x", .int 1), ("y", .int 2)])]])])
      ≠ render_html (.obj [("data", .arr [.obj [("breeds", .obj [("y", .int 2), ("x", .int 1)])]])]) := by
  exact ⟨by decide, by decide⟩

/-- C7 (amended): `render_html` is a pure function of its payload — it
consults no clock, randomness or external state, so runs on the same
payload value (identical structure, including dict insertion order) return
character-for-character identical HTML; only payloads that are Python-equal
yet differ in dict insertion order may render differently. -/
theorem render_html_deterministic (p q : JVal) (h : p = q) :
    render_html p = render_html q := by rw [h]

theorem render_html_deterministic_witness :
    render_html (.obj [("data", .arr [])]) = render_html (.obj [("data", .arr [])]) :=
  render_html_deterministic _ _ rfl
